import Mathlib

/-!
Verification of the policy-auditor coverage assessment engine.

This file gives a shallow embedding of the core analyzer code
(`backend/core/enhanced_coverage_analyzer.py` and the excerpt
deduplication of `backend/core/enhanced_policy_analyzer.py`) and proves
the specified properties of the classifier, the confidence model, the
evidence extractor and the excerpt deduplicator.

Python strings are modeled as Lean `String` values; the handful of
string primitives the code uses (`in`, `lower()`, `strip()`, `split`,
slicing) are defined structurally over `String.data` so that every
definition evaluates by kernel reduction.  Python floats are modeled as
exact rationals (`ℚ`): every numeric constant in the source (0.7, 0.3,
0.5, the confidence weights) is a short decimal literal, taken at its
exact rational value.
-/

/-- `chIsPref p l` is true when the char list `p` is a prefix of `l`. -/
def chIsPref : List Char → List Char → Bool
  | [], _ => true
  | _ :: _, [] => false
  | a :: as, b :: bs => a = b && chIsPref as bs

/-- `chContains hay needle`: Python's `needle in hay` on char lists
(substring containment; the empty needle is contained in everything). -/
def chContains : List Char → List Char → Bool
  | [], needle => needle.isEmpty
  | c :: rest, needle => chIsPref needle (c :: rest) || chContains rest needle

/-- Python's `needle in hay` for strings. -/
def pyIn (needle hay : String) : Bool :=
  chContains hay.data needle.data

/-- Python's `str.lower()` (ASCII case folding, as used by the analyzer
on its ASCII regulation codes and keywords). -/
def pyLower (s : String) : String :=
  ⟨s.data.map Char.toLower⟩

/-- Python's `s[:n]` slice. -/
def pyTake (n : Nat) (s : String) : String :=
  ⟨s.data.take n⟩

/-- Python's `str.strip()`: drop leading and trailing whitespace. -/
def pyStrip (s : String) : String :=
  ⟨(((s.data.dropWhile Char.isWhitespace).reverse.dropWhile Char.isWhitespace).reverse)⟩

/-- Split a char list on the `'.'` character, keeping empty pieces,
mirroring Python's `text.split('.')`. -/
def chSplitDot : List Char → List (List Char)
  | [] => [[]]
  | c :: rest =>
      if c = '.' then [] :: chSplitDot rest
      else
        match chSplitDot rest with
        | [] => [[c]]
        | h :: t => (c :: h) :: t

/-- Python's `text.split('.')`. -/
def pySplitDot (s : String) : List String :=
  (chSplitDot s.data).map fun l => ⟨l⟩

/-- Helper for whitespace splitting: `cur` is the (reversed) word being
accumulated. -/
def chSplitWsAux : List Char → List Char → List (List Char)
  | cur, [] => if cur.isEmpty then [] else [cur.reverse]
  | cur, c :: rest =>
      if c.isWhitespace then
        if cur.isEmpty then chSplitWsAux [] rest
        else cur.reverse :: chSplitWsAux [] rest
      else chSplitWsAux (c :: cur) rest

/-- Python's `str.split()` (split on whitespace, discarding empties). -/
def pyWords (s : String) : List String :=
  (chSplitWsAux [] s.data).map fun l => ⟨l⟩

/-- The `CoverageType` enum of `enhanced_coverage_analyzer.py`. -/
inductive CoverageType where
  | FULL_COMPLIANCE
  | PARTIAL_COMPLIANCE
  | REFERENCE_ONLY
  | RELATED
  | NO_COVERAGE
  | MANUAL_REVIEW
deriving DecidableEq, Repr

/-- The `RequirementDetail` dataclass: one requirement unit with its
extracted components. -/
structure RequirementDetail where
  requirement_id : String
  apl_code : String
  section_number : String
  requirement_text : String
  regulation_references : List String
  key_obligations : List String
  timeframes : List String
  definitions : List (String × String)
deriving DecidableEq

/-- The policy record fields the analyzer reads (`policy_code`, `title`,
`id`, `extracted_text`; the text may be absent). -/
structure Policy where
  policy_code : String
  title : String
  id : Nat
  extracted_text : Option String
deriving DecidableEq

/-- The evidence dict built by `assess_policy_coverage`, as a typed
record: regulation matches, the APL-mention flag, per-obligation
coverage entries `(obligation[:100], coverage_pct)`, timeframe matches
and matched definitions. -/
structure EvidenceBundle where
  regulation_matches : List String
  apl_mentioned : Bool
  obligation_coverage : List (String × ℚ)
  timeframe_matches : List String
  definition_coverage : List (String × String)
deriving DecidableEq

/-- One entry of `matching_policies`. -/
structure MatchingPolicy where
  policy_code : String
  policy_title : String
  policy_id : Nat
  match_details : EvidenceBundle
deriving DecidableEq

/-- The `CoverageAssessment` dataclass. -/
structure CoverageAssessment where
  requirement : RequirementDetail
  coverage_type : CoverageType
  matching_policies : List MatchingPolicy
  confidence_score : ℚ
  evidence : EvidenceBundle
  gaps : List String
  manual_review_needed : Bool

/-- `EnhancedCoverageAnalyzer.OBLIGATION_KEYWORDS`. -/
def OBLIGATION_KEYWORDS : List String :=
  ["must", "shall", "required", "mandatory", "will",
   "responsible for", "obligation", "ensure", "maintain"]

/-- `EnhancedCoverageAnalyzer._determine_coverage_type`: the ordered
threshold rules deciding a `CoverageType` from the evidence components
and the requirement. -/
def determine_coverage_type (reg_matches : List String) (apl_mentioned : Bool)
    (obligation_coverage : List (String × ℚ)) (timeframe_matches : List String)
    (requirement : RequirementDetail) : CoverageType :=
  if reg_matches ≠ [] ∧
      (obligation_coverage.length : ℚ) ≥ (requirement.key_obligations.length : ℚ) * 0.7 ∧
      (requirement.timeframes = [] ∨ timeframe_matches ≠ []) then
    .FULL_COMPLIANCE
  else if (reg_matches ≠ [] ∨ apl_mentioned) ∧
      (obligation_coverage.length : ℚ) < (requirement.key_obligations.length : ℚ) * 0.3 then
    .REFERENCE_ONLY
  else if (obligation_coverage.length : ℚ) ≥ (requirement.key_obligations.length : ℚ) * 0.3 then
    .PARTIAL_COMPLIANCE
  else if obligation_coverage.length > 0 ∨ timeframe_matches ≠ [] then
    .RELATED
  else
    .NO_COVERAGE

/-- The coverage-type decision rules exactly as the specification words
them, with the percentage thresholds written over natural numbers:
`covered ≥ 70% of total` as `10 * covered ≥ 7 * total` and
`covered < 30% of total` as `10 * covered < 3 * total`. -/
def coverage_rules_spec (reg_matches : List String) (apl_mentioned : Bool)
    (obligation_coverage : List (String × ℚ)) (timeframe_matches : List String)
    (requirement : RequirementDetail) : CoverageType :=
  if reg_matches.length ≥ 1 ∧
      10 * obligation_coverage.length ≥ 7 * requirement.key_obligations.length ∧
      (requirement.timeframes.length = 0 ∨ timeframe_matches.length ≥ 1) then
    .FULL_COMPLIANCE
  else if (reg_matches.length ≥ 1 ∨ apl_mentioned) ∧
      10 * obligation_coverage.length < 3 * requirement.key_obligations.length then
    .REFERENCE_ONLY
  else if 10 * obligation_coverage.length ≥ 3 * requirement.key_obligations.length then
    .PARTIAL_COMPLIANCE
  else if obligation_coverage.length > 0 ∨ timeframe_matches.length ≥ 1 then
    .RELATED
  else
    .NO_COVERAGE


/-- `EnhancedCoverageAnalyzer._extract_obligations`: split on `'.'`,
keep sentences containing an obligation keyword whose stripped length is
strictly between 10 and 500, then take the first 10. -/
def extract_obligations (text : String) : List String :=
  ((pySplitDot text).foldl
    (fun obligations sentence =>
      if OBLIGATION_KEYWORDS.any (fun keyword => pyIn keyword (pyLower sentence)) then
        if 10 < (pyStrip sentence).length ∧ (pyStrip sentence).length < 500 then
          obligations ++ [pyStrip sentence]
        else obligations
      else obligations)
    []).take 10

/-- The stoplist excluded from obligation key words. -/
def STOP_WORDS : List String := ["that", "this", "with", "from"]

/-- The significant words of an obligation sentence: lowercased
whitespace-separated words longer than 4 characters and not in the
stoplist (`assess_policy_coverage`, Check 3). -/
def significantWords (obligation : String) : List String :=
  (pyWords (pyLower obligation)).filter
    (fun w => decide (4 < w.length) && !(STOP_WORDS.contains w))

/-- The per-obligation body of Check 3 of `assess_policy_coverage`: when
the obligation has significant words and strictly more than half of them
occur in the (lowercased) policy text, it yields an obligation-coverage
entry `(obligation[:100], coverage_pct)`; otherwise none. -/
def obligationEntry (obligation : String) (policy_text : String) : Option (String × ℚ) :=
  let key_words := significantWords obligation
  if key_words ≠ [] then
    let matchCount := (key_words.filter (fun word => pyIn word policy_text)).length
    let coverage_pct : ℚ := (matchCount : ℚ) / (key_words.length : ℚ)
    if coverage_pct > 0.5 then some (pyTake 100 obligation, coverage_pct) else none
  else none

/-- `EnhancedCoverageAnalyzer._calculate_confidence`: the weighted
confidence score, accumulated category by category in source order and
clamped above by 1. -/
def calculate_confidence (evidence : EvidenceBundle) (requirement : RequirementDetail) : ℚ :=
  let score0 : ℚ := 0
  let score1 := if requirement.regulation_references ≠ [] then
      score0 + (evidence.regulation_matches.length : ℚ) /
        (requirement.regulation_references.length : ℚ) * 0.3
    else score0
  let score2 := if evidence.apl_mentioned then score1 + 0.1 else score1
  let score3 := if requirement.key_obligations ≠ [] then
      score2 + (evidence.obligation_coverage.length : ℚ) /
        (requirement.key_obligations.length : ℚ) * 0.4
    else score2
  let score4 := if requirement.timeframes ≠ [] then
      score3 + (evidence.timeframe_matches.length : ℚ) /
        (requirement.timeframes.length : ℚ) * 0.1
    else score3
  let score5 := if requirement.definitions ≠ [] then
      score4 + (evidence.definition_coverage.length : ℚ) /
        (requirement.definitions.length : ℚ) * 0.1
    else score4
  min score5 1

/-- The evidence record of the early-return branch of
`assess_policy_coverage` (an empty dict in the source). -/
def emptyEvidence : EvidenceBundle :=
  { regulation_matches := []
    apl_mentioned := false
    obligation_coverage := []
    timeframe_matches := []
    definition_coverage := [] }

/-- The `CoverageAssessment` returned when the policy has no extracted
text. -/
def noTextAssessment (requirement : RequirementDetail) : CoverageAssessment :=
  { requirement := requirement
    coverage_type := .NO_COVERAGE
    matching_policies := []
    confidence_score := 0
    evidence := emptyEvidence
    gaps := ["Policy has no extracted text"]
    manual_review_needed := false }

/-- The main branch of `assess_policy_coverage`, for a policy whose
extracted text `t` is present and non-empty. -/
def assess_body (requirement : RequirementDetail) (policy : Policy) (t : String) :
    CoverageAssessment :=
      let policy_text := pyLower t
      let reg_matches := requirement.regulation_references.filter
        (fun reg => pyIn (pyLower reg) policy_text)
      let apl_mentioned := pyIn (pyLower requirement.apl_code) policy_text
      let obligation_coverage := requirement.key_obligations.filterMap
        (fun obligation => obligationEntry obligation policy_text)
      let timeframe_matches := requirement.timeframes.filter
        (fun timeframe => pyIn (pyLower timeframe) policy_text)
      let definition_coverage := requirement.definitions.filterMap
        (fun td => if pyIn (pyLower td.1) policy_text then
            some (td.1, "Term found in policy") else none)
      let evidence : EvidenceBundle :=
        { regulation_matches := reg_matches
          apl_mentioned := apl_mentioned
          obligation_coverage := obligation_coverage
          timeframe_matches := timeframe_matches
          definition_coverage := definition_coverage }
      let coverage_type := determine_coverage_type reg_matches apl_mentioned
        obligation_coverage timeframe_matches requirement
      let confidence := calculate_confidence evidence requirement
      let gaps :=
        (if reg_matches = [] ∧ requirement.regulation_references ≠ [] then
          ["Missing regulation references: " ++
            String.intercalate ", " requirement.regulation_references]
        else [])
        ++ (if obligation_coverage = [] ∧ requirement.key_obligations ≠ [] then
          ["Key obligations not addressed"] else [])
        ++ (if timeframe_matches = [] ∧ requirement.timeframes ≠ [] then
          ["Missing timeframes: " ++ String.intercalate ", " requirement.timeframes]
        else [])
      let manual_review_needed := decide (coverage_type = .PARTIAL_COMPLIANCE ∨
        coverage_type = .REFERENCE_ONLY ∨
        (coverage_type = .RELATED ∧ confidence > 0.3))
      { requirement := requirement
        coverage_type := coverage_type
        matching_policies := if coverage_type ≠ .NO_COVERAGE then
            [{ policy_code := policy.policy_code
               policy_title := policy.title
               policy_id := policy.id
               match_details := evidence }]
          else []
        confidence_score := confidence
        evidence := evidence
        gaps := gaps
        manual_review_needed := manual_review_needed }

/-- `EnhancedCoverageAnalyzer.assess_policy_coverage`: assess how well a
policy covers one requirement unit.  A policy with absent or empty
extracted text short-circuits to the no-text assessment. -/
def assess_policy_coverage (requirement : RequirementDetail) (policy : Policy) :
    CoverageAssessment :=
  match policy.extracted_text with
  | none => noTextAssessment requirement
  | some t =>
    if t = "" then noTextAssessment requirement
    else assess_body requirement policy t

/-- The priority map of `EnhancedCoverageAnalyzer._is_better_coverage`. -/
def coveragePriority : CoverageType → ℕ
  | .FULL_COMPLIANCE => 5
  | .PARTIAL_COMPLIANCE => 4
  | .REFERENCE_ONLY => 3
  | .RELATED => 2
  | .MANUAL_REVIEW => 1
  | .NO_COVERAGE => 0

/-- `EnhancedCoverageAnalyzer._is_better_coverage`. -/
def is_better_coverage (new_type current_type : CoverageType) : Bool :=
  decide (coveragePriority new_type > coveragePriority current_type)

/-- The `ContextualExcerpt` dataclass of `enhanced_policy_analyzer.py`. -/
structure ContextualExcerpt where
  policy_code : String
  policy_title : String
  text : String
  start_pos : Int
  end_pos : Int
  context : String
  relevance_score : ℚ
  matched_elements : List String
  surrounding_keywords : List String
deriving DecidableEq

/-- The overlap test of `_deduplicate_excerpts`:
`excerpt.start_pos < existing.end_pos and excerpt.end_pos > existing.start_pos`. -/
def overlapsWith (a b : ContextualExcerpt) : Prop :=
  a.start_pos < b.end_pos ∧ a.end_pos > b.start_pos

instance (a b : ContextualExcerpt) : Decidable (overlapsWith a b) :=
  inferInstanceAs (Decidable (_ ∧ _))

/-- One iteration of the greedy sweep of `_deduplicate_excerpts`: scan
the kept list for the first overlap with the incoming excerpt; on
overlap, replace the kept excerpt when the incoming one has strictly
higher relevance, otherwise discard the incoming one; with no overlap,
append it at the end. -/
def dedupStep : List ContextualExcerpt → ContextualExcerpt → List ContextualExcerpt
  | [], excerpt => [excerpt]
  | existing :: rest, excerpt =>
      if overlapsWith excerpt existing then
        if excerpt.relevance_score > existing.relevance_score then rest ++ [excerpt]
        else existing :: rest
      else existing :: dedupStep rest excerpt

/-- The sort key of `_deduplicate_excerpts`:
`(e.start_pos, -e.relevance_score)` ascending. -/
def excerptLE (a b : ContextualExcerpt) : Bool :=
  decide (a.start_pos < b.start_pos ∨
    (a.start_pos = b.start_pos ∧ b.relevance_score ≤ a.relevance_score))

/-- `EnhancedPolicyAnalyzer._deduplicate_excerpts`: sort by
`(start_pos, -relevance_score)`, keep the first excerpt and fold the
rest through the greedy sweep. -/
def deduplicate_excerpts (excerpts : List ContextualExcerpt) : List ContextualExcerpt :=
  match excerpts.mergeSort excerptLE with
  | [] => []
  | first :: rest => rest.foldl dedupStep [first]

/-- The confidence formula exactly as the specification words it: the
sum over the five categories of the category weight times that
category's matched fraction, a category with an empty requirement side
contributing 0, the total clamped to `[0,1]`. -/
def confidence_spec (evidence : EvidenceBundle) (requirement : RequirementDetail) : ℚ :=
  let regFrac : ℚ := if requirement.regulation_references.length = 0 then 0
    else (evidence.regulation_matches.length : ℚ) / (requirement.regulation_references.length : ℚ)
  let aplFrac : ℚ := if evidence.apl_mentioned then 1 else 0
  let oblFrac : ℚ := if requirement.key_obligations.length = 0 then 0
    else (evidence.obligation_coverage.length : ℚ) / (requirement.key_obligations.length : ℚ)
  let tfFrac : ℚ := if requirement.timeframes.length = 0 then 0
    else (evidence.timeframe_matches.length : ℚ) / (requirement.timeframes.length : ℚ)
  let defFrac : ℚ := if requirement.definitions.length = 0 then 0
    else (evidence.definition_coverage.length : ℚ) / (requirement.definitions.length : ℚ)
  min (0.3 * regFrac + 0.1 * aplFrac + 0.4 * oblFrac + 0.1 * tfFrac + 0.1 * defFrac) 1

/-- A concrete requirement unit used as a witness: one regulation
reference, one obligation, no timeframes, no definitions. -/
def reqFull : RequirementDetail :=
  { requirement_id := "1"
    apl_code := "APL 23-001"
    section_number := "Main"
    requirement_text := "The plan must maintain records per WIC 100."
    regulation_references := ["WIC 100"]
    key_obligations := ["must maintain records"]
    timeframes := []
    definitions := [] }

/-- A concrete policy whose text fully covers `reqFull`. -/
def polFull : Policy :=
  { policy_code := "P1"
    title := "Records"
    id := 1
    extracted_text := some "WIC 100 maintain records" }

/-- A concrete policy with absent text. -/
def polNoText : Policy :=
  { policy_code := "P2"
    title := "Empty"
    id := 2
    extracted_text := none }

/-- Requirement for the obligation-coverage boundary: one obligation
with exactly two significant words. -/
def reqHalf : RequirementDetail :=
  { requirement_id := "2"
    apl_code := "APL 23-002"
    section_number := "Main"
    requirement_text := "alpha bravo"
    regulation_references := []
    key_obligations := ["alpha bravo"]
    timeframes := []
    definitions := [] }

/-- A policy matching exactly one of the two significant words of
`reqHalf`, i.e. a 50% overlap. -/
def polHalf : Policy :=
  { policy_code := "P3"
    title := "Half"
    id := 3
    extracted_text := some "alpha" }

/-- A policy containing the bare bulletin code `23-001` without the
`APL ` label prefix. -/
def polBareCode : Policy :=
  { policy_code := "P4"
    title := "Bare"
    id := 4
    extracted_text := some "see 23-001 for details" }

/-- A policy containing the full code `APL 23-001`. -/
def polFullCode : Policy :=
  { policy_code := "P5"
    title := "Full"
    id := 5
    extracted_text := some "per APL 23-001 the plan must maintain records" }
lemma ratio_ge_seven_tenths (c n : ℕ) :
    ((c : ℚ) ≥ (n : ℚ) * 0.7) ↔ 10 * c ≥ 7 * n := by
  rw [ge_iff_le, ge_iff_le, ← Nat.cast_le (α := ℚ)]
  push_cast
  constructor <;> intro h <;> nlinarith

/-- Exact-rational form of the 30% threshold. -/
lemma ratio_lt_three_tenths (c n : ℕ) :
    ((c : ℚ) < (n : ℚ) * 0.3) ↔ 10 * c < 3 * n := by
  rw [← Nat.cast_lt (α := ℚ)]
  push_cast
  constructor <;> intro h <;> nlinarith

/-- Exact-rational form of the 30% threshold, non-strict direction. -/
lemma ratio_ge_three_tenths (c n : ℕ) :
    ((c : ℚ) ≥ (n : ℚ) * 0.3) ↔ 10 * c ≥ 3 * n := by
  rw [ge_iff_le, ge_iff_le, ← Nat.cast_le (α := ℚ)]
  push_cast
  constructor <;> intro h <;> nlinarith

/-- The classifier agrees with the natural-number form of its rules;
helper shared by several proofs below. -/
lemma determine_matches_rules (reg_matches : List String)
    (apl_mentioned : Bool) (obligation_coverage : List (String × ℚ))
    (timeframe_matches : List String) (requirement : RequirementDetail) :
    determine_coverage_type reg_matches apl_mentioned obligation_coverage
      timeframe_matches requirement =
    coverage_rules_spec reg_matches apl_mentioned obligation_coverage
      timeframe_matches requirement := by
  have hne : ∀ l : List String, l ≠ [] ↔ l.length ≥ 1 := by
    intro l
    rw [Ne, ← List.length_eq_zero]
    omega
  have hz : ∀ l : List String, l = [] ↔ l.length = 0 := by
    intro l
    rw [← List.length_eq_zero]
  unfold determine_coverage_type coverage_rules_spec
  simp only [ratio_ge_seven_tenths, ratio_lt_three_tenths, ratio_ge_three_tenths, hne, hz]

/-- C1: the coverage classifier implements exactly the five
priority-ordered rules of the specification, for every evidence tuple
and every requirement (including requirements with zero obligations or
zero timeframes). -/
theorem determine_coverage_type_eq_spec (reg_matches : List String)
    (apl_mentioned : Bool) (obligation_coverage : List (String × ℚ))
    (timeframe_matches : List String) (requirement : RequirementDetail) :
    determine_coverage_type reg_matches apl_mentioned obligation_coverage
      timeframe_matches requirement =
    coverage_rules_spec reg_matches apl_mentioned obligation_coverage
      timeframe_matches requirement :=
  determine_matches_rules reg_matches apl_mentioned obligation_coverage
    timeframe_matches requirement

/-- C9: the coverage-type decision procedure always returns one of the
five values FULL_COMPLIANCE, PARTIAL_COMPLIANCE, REFERENCE_ONLY,
RELATED, NO_COVERAGE, and never the sixth enum value MANUAL_REVIEW. -/
theorem determine_coverage_type_never_manual (reg_matches : List String)
    (apl_mentioned : Bool) (obligation_coverage : List (String × ℚ))
    (timeframe_matches : List String) (requirement : RequirementDetail) :
    (determine_coverage_type reg_matches apl_mentioned obligation_coverage
        timeframe_matches requirement = .FULL_COMPLIANCE ∨
     determine_coverage_type reg_matches apl_mentioned obligation_coverage
        timeframe_matches requirement = .PARTIAL_COMPLIANCE ∨
     determine_coverage_type reg_matches apl_mentioned obligation_coverage
        timeframe_matches requirement = .REFERENCE_ONLY ∨
     determine_coverage_type reg_matches apl_mentioned obligation_coverage
        timeframe_matches requirement = .RELATED ∨
     determine_coverage_type reg_matches apl_mentioned obligation_coverage
        timeframe_matches requirement = .NO_COVERAGE) ∧
    determine_coverage_type reg_matches apl_mentioned obligation_coverage
        timeframe_matches requirement ≠ .MANUAL_REVIEW := by
  unfold determine_coverage_type
  split_ifs <;> simp

/-- Unfolding lemma: a policy without text short-circuits. -/
lemma assess_none (requirement : RequirementDetail) (policy : Policy)
    (hpt : policy.extracted_text = none) :
    assess_policy_coverage requirement policy = noTextAssessment requirement := by
  unfold assess_policy_coverage
  rw [hpt]

/-- Unfolding lemma: a policy with empty text short-circuits. -/
lemma assess_empty (requirement : RequirementDetail) (policy : Policy)
    (hpt : policy.extracted_text = some "") :
    assess_policy_coverage requirement policy = noTextAssessment requirement := by
  unfold assess_policy_coverage
  rw [hpt]
  rfl

/-- Unfolding lemma: a policy with non-empty text is assessed by the
main branch. -/
lemma assess_some (requirement : RequirementDetail) (policy : Policy) (t : String)
    (hpt : policy.extracted_text = some t) (ht : t ≠ "") :
    assess_policy_coverage requirement policy = assess_body requirement policy t := by
  unfold assess_policy_coverage
  rw [hpt]
  exact if_neg ht

/-- Projection of the evidence bundle out of the main branch. -/
lemma assess_body_evidence (requirement : RequirementDetail) (policy : Policy)
    (t : String) :
    (assess_body requirement policy t).evidence =
      { regulation_matches := requirement.regulation_references.filter
          (fun reg => pyIn (pyLower reg) (pyLower t))
        apl_mentioned := pyIn (pyLower requirement.apl_code) (pyLower t)
        obligation_coverage := requirement.key_obligations.filterMap
          (fun obligation => obligationEntry obligation (pyLower t))
        timeframe_matches := requirement.timeframes.filter
          (fun timeframe => pyIn (pyLower timeframe) (pyLower t))
        definition_coverage := requirement.definitions.filterMap
          (fun td => if pyIn (pyLower td.1) (pyLower t) then
              some (td.1, "Term found in policy") else none) } := rfl

/-- Projection of the coverage type out of the main branch. -/
lemma assess_body_coverage_type (requirement : RequirementDetail) (policy : Policy)
    (t : String) :
    (assess_body requirement policy t).coverage_type =
      determine_coverage_type
        (requirement.regulation_references.filter
          (fun reg => pyIn (pyLower reg) (pyLower t)))
        (pyIn (pyLower requirement.apl_code) (pyLower t))
        (requirement.key_obligations.filterMap
          (fun obligation => obligationEntry obligation (pyLower t)))
        (requirement.timeframes.filter
          (fun timeframe => pyIn (pyLower timeframe) (pyLower t)))
        requirement := rfl

/-- Projection of the gaps list out of the main branch. -/
lemma assess_body_gaps (requirement : RequirementDetail) (policy : Policy)
    (t : String) :
    (assess_body requirement policy t).gaps =
      ((if requirement.regulation_references.filter
            (fun reg => pyIn (pyLower reg) (pyLower t)) = [] ∧
            requirement.regulation_references ≠ [] then
          ["Missing regulation references: " ++
            String.intercalate ", " requirement.regulation_references]
        else []) ++
       (if requirement.key_obligations.filterMap
            (fun obligation => obligationEntry obligation (pyLower t)) = [] ∧
            requirement.key_obligations ≠ [] then
          ["Key obligations not addressed"]
        else []) ++
       (if requirement.timeframes.filter
            (fun timeframe => pyIn (pyLower timeframe) (pyLower t)) = [] ∧
            requirement.timeframes ≠ [] then
          ["Missing timeframes: " ++ String.intercalate ", " requirement.timeframes]
        else [])) := rfl

/-- C2: assessing any requirement unit against a policy whose extracted
text is absent or empty yields NO_COVERAGE with confidence exactly 0 and
a non-empty gaps list. -/
theorem empty_policy_law (requirement : RequirementDetail) (policy : Policy)
    (h : policy.extracted_text = none ∨ policy.extracted_text = some "") :
    (assess_policy_coverage requirement policy).coverage_type = .NO_COVERAGE ∧
    (assess_policy_coverage requirement policy).confidence_score = 0 ∧
    (assess_policy_coverage requirement policy).gaps ≠ [] := by
  rcases h with h | h <;>
    simp [assess_policy_coverage, h, noTextAssessment]

/-- Witness for C2 at a concrete pair. -/
theorem empty_policy_law_witness :
    (polNoText.extracted_text = none ∨ polNoText.extracted_text = some "") ∧
    ((assess_policy_coverage reqFull polNoText).coverage_type = .NO_COVERAGE ∧
     (assess_policy_coverage reqFull polNoText).confidence_score = 0 ∧
     (assess_policy_coverage reqFull polNoText).gaps ≠ []) :=
  ⟨Or.inl rfl, empty_policy_law reqFull polNoText (Or.inl rfl)⟩

/-- C6: the confidence score equals the specification's weighted sum
over the five evidence categories, with empty requirement-side
categories contributing 0 and no renormalization, and the result lies
in `[0,1]`. -/
theorem calculate_confidence_eq_spec (evidence : EvidenceBundle)
    (requirement : RequirementDetail) :
    calculate_confidence evidence requirement = confidence_spec evidence requirement ∧
    0 ≤ calculate_confidence evidence requirement ∧
    calculate_confidence evidence requirement ≤ 1 := by
  refine ⟨?_, ?_, ?_⟩
  · unfold calculate_confidence confidence_spec
    simp only [ne_eq, ← List.length_eq_zero]
    split_ifs <;> (congr 1; ring)
  · unfold calculate_confidence
    split_ifs <;> positivity
  · unfold calculate_confidence
    exact min_le_right _ _

/-- Accumulator lemma: a fold that appends an optional element per input
is the filterMap of the inputs. -/
lemma foldl_accum_filterMap {α β : Type} (f : α → Option β)
    (step : List β → α → List β)
    (hstep : ∀ acc a, step acc a = acc ++ (f a).toList) :
    ∀ (l : List α) (acc : List β), l.foldl step acc = acc ++ l.filterMap f := by
  intro l
  induction l with
  | nil => intro acc; simp
  | cons a l ih =>
      intro acc
      rw [List.foldl_cons, ih, hstep, List.filterMap_cons]
      cases f a <;> simp

/-- C8 (amended): obligation extraction returns exactly the
`'.'`-separated sentences containing an obligation keyword whose
stripped length is strictly greater than 10 and strictly less than 500,
stripped, in document order, truncated to 10. -/
theorem extract_obligations_characterization (text : String) :
    extract_obligations text =
      ((pySplitDot text).filterMap (fun sentence =>
        if OBLIGATION_KEYWORDS.any (fun keyword => pyIn keyword (pyLower sentence)) ∧
            10 < (pyStrip sentence).length ∧ (pyStrip sentence).length < 500 then
          some (pyStrip sentence)
        else none)).take 10 := by
  unfold extract_obligations
  rw [foldl_accum_filterMap
    (fun sentence =>
      if OBLIGATION_KEYWORDS.any (fun keyword => pyIn keyword (pyLower sentence)) ∧
          10 < (pyStrip sentence).length ∧ (pyStrip sentence).length < 500 then
        some (pyStrip sentence)
      else none)
    _ ?hstep]
  · rw [List.nil_append]
  case hstep =>
    intro acc s
    by_cases h1 : OBLIGATION_KEYWORDS.any (fun keyword => pyIn keyword (pyLower s)) = true
    · by_cases h2 : 10 < (pyStrip s).length ∧ (pyStrip s).length < 500
      · simp [h1, h2]
      · simp [h1, h2]
    · simp [h1]

/-- Counterexample for C8 as stated: the sentence `"must aaaaa"` has an
obligation keyword and stripped length exactly 10, yet it is not kept
(the code requires length strictly greater than 10, so the half-open
interval `[10, 500)` of the claim is wrong at its left endpoint). -/
theorem extract_obligations_ten_char_cex :
    extract_obligations "must aaaaa." = [] ∧
    (pyStrip "must aaaaa").length = 10 ∧
    OBLIGATION_KEYWORDS.any (fun keyword => pyIn keyword (pyLower "must aaaaa")) = true := by
  decide

/-- Ratio form of the strict half threshold. -/
lemma half_lt_ratio (m k : ℕ) (hk : 0 < k) :
    ((m : ℚ) / (k : ℚ) > 0.5) ↔ 2 * m > k := by
  rw [gt_iff_lt, lt_div_iff₀ (by exact_mod_cast hk)]
  rw [gt_iff_lt, ← Nat.cast_lt (α := ℚ)]
  push_cast
  constructor <;> intro h <;> nlinarith

/-- Helper form of the obligation-coverage membership condition, shared
by several proofs below. -/
lemma obligationEntry_isSome_iff (obligation policy_text : String) :
    (obligationEntry obligation policy_text).isSome = true ↔
    (significantWords obligation ≠ [] ∧
     2 * ((significantWords obligation).filter
        (fun word => pyIn word policy_text)).length >
       (significantWords obligation).length) := by
  unfold obligationEntry
  by_cases hk : significantWords obligation ≠ []
  · have hkpos : 0 < (significantWords obligation).length :=
      List.length_pos.mpr hk
    have hhalf := half_lt_ratio
      ((significantWords obligation).filter (fun word => pyIn word policy_text)).length
      (significantWords obligation).length hkpos
    simp only [hk, if_true]
    by_cases hcov : ((((significantWords obligation).filter
        (fun word => pyIn word policy_text)).length : ℚ) /
        ((significantWords obligation).length : ℚ) > 0.5)
    · simp [hcov, hk, hhalf.mp hcov]
    · simp only [hcov, if_false, Option.isSome_none]
      simp only [hhalf] at hcov
      simp [hcov]
  · simp only [ne_eq, not_not] at hk
    simp [hk]

/-- C3 (amended): an obligation contributes an obligation-coverage entry
exactly when it has at least one significant word and strictly more than
50% of its significant words occur in the policy text; an obligation at
exactly 50% does not count as covered. -/
theorem obligation_covered_iff (obligation policy_text : String) :
    (obligationEntry obligation policy_text).isSome = true ↔
    (significantWords obligation ≠ [] ∧
     2 * ((significantWords obligation).filter
        (fun word => pyIn word policy_text)).length >
       (significantWords obligation).length) :=
  obligationEntry_isSome_iff obligation policy_text

/-- Evaluation of the 50% boundary instance: one of the two significant
words of `"alpha bravo"` occurs in `"alpha"`, and the entry is `none`. -/
lemma obligationEntry_half_eval : obligationEntry "alpha bravo" "alpha" = none := by
  have hsw : significantWords "alpha bravo" = ["alpha", "bravo"] := by decide
  have hfil : (["alpha", "bravo"] : List String).filter
      (fun word => pyIn word "alpha") = ["alpha"] := by decide
  have hlt : ¬ (((1 : ℕ) : ℚ) / ((2 : ℕ) : ℚ) > 0.5) := by norm_num
  simp only [obligationEntry, hsw, hfil]
  norm_num

/-- Counterexample for C3 as stated: the obligation `"alpha bravo"` has
two significant words, exactly one of which occurs in the policy text
`"alpha"` (a 50% overlap), yet the obligation-coverage list of the
assessment is empty. -/
theorem obligation_half_cex :
    (assess_policy_coverage reqHalf polHalf).evidence.obligation_coverage = [] ∧
    significantWords "alpha bravo" = ["alpha", "bravo"] ∧
    ((significantWords "alpha bravo").filter
      (fun word => pyIn word "alpha")).length = 1 := by
  have hsw : significantWords "alpha bravo" = ["alpha", "bravo"] := by decide
  have hfil : (["alpha", "bravo"] : List String).filter
      (fun word => pyIn word "alpha") = ["alpha"] := by decide
  have hlow : pyLower "alpha" = "alpha" := by decide
  refine ⟨?_, hsw, by rw [hsw, hfil]; rfl⟩
  rw [assess_some reqHalf polHalf "alpha" rfl (by decide), assess_body_evidence]
  simp [reqHalf, hlow, obligationEntry_half_eval]

/-- C7 (amended): the `apl_mentioned` evidence flag of
`assess_policy_coverage` is the case-insensitive substring test of the
unit's full parent code, with no label-prefix stripping (the stripped
comparison exists only in `enhanced_policy_analyzer.py`). -/
theorem apl_mentioned_iff (requirement : RequirementDetail) (policy : Policy)
    (t : String) (h1 : policy.extracted_text = some t) (h2 : t ≠ "") :
    (assess_policy_coverage requirement policy).evidence.apl_mentioned =
      pyIn (pyLower requirement.apl_code) (pyLower t) := by
  rw [assess_some requirement policy t h1 h2, assess_body_evidence]

/-- Witness for C7's amended theorem at a concrete pair. -/
theorem apl_mentioned_iff_witness :
    (polFullCode.extracted_text = some "per APL 23-001 the plan must maintain records" ∧
     "per APL 23-001 the plan must maintain records" ≠ "") ∧
    (assess_policy_coverage reqFull polFullCode).evidence.apl_mentioned =
      pyIn (pyLower reqFull.apl_code)
        (pyLower "per APL 23-001 the plan must maintain records") :=
  ⟨⟨rfl, by decide⟩,
    apl_mentioned_iff reqFull polFullCode _ rfl (by decide)⟩

/-- Counterexample for C7 as stated: the policy text contains the bare
code `23-001` without the `APL ` label, but the evidence flag is false —
`assess_policy_coverage` searches for the full code and never strips the
label word. -/
theorem apl_flag_bare_code_cex :
    (assess_policy_coverage reqFull polBareCode).evidence.apl_mentioned = false ∧
    pyIn "23-001" (pyLower "see 23-001 for details") = true := by
  decide

/-- The conditions under which the classifier returns FULL_COMPLIANCE,
extracted in natural-number form. -/
lemma full_conditions (reg_matches : List String) (apl_mentioned : Bool)
    (obligation_coverage : List (String × ℚ)) (timeframe_matches : List String)
    (requirement : RequirementDetail)
    (h : determine_coverage_type reg_matches apl_mentioned obligation_coverage
        timeframe_matches requirement = .FULL_COMPLIANCE) :
    reg_matches ≠ [] ∧
    10 * obligation_coverage.length ≥ 7 * requirement.key_obligations.length ∧
    (requirement.timeframes = [] ∨ timeframe_matches ≠ []) := by
  rw [determine_coverage_type] at h
  split_ifs at h with h1 h2 h3 h4
  exact ⟨h1.1, (ratio_ge_seven_tenths _ _).mp h1.2.1, h1.2.2⟩

/-- The three gap rules are all unsatisfiable under the FULL_COMPLIANCE
conditions, for arbitrary gap strings. -/
lemma full_gaps_empty (reg_matches : List String) (apl_mentioned : Bool)
    (obligation_coverage : List (String × ℚ)) (timeframe_matches : List String)
    (requirement : RequirementDetail) (g1 g2 g3 : List String)
    (h : determine_coverage_type reg_matches apl_mentioned obligation_coverage
        timeframe_matches requirement = .FULL_COMPLIANCE) :
    ((if reg_matches = [] ∧ requirement.regulation_references ≠ [] then g1 else []) ++
     (if obligation_coverage = [] ∧ requirement.key_obligations ≠ [] then g2 else []) ++
     (if timeframe_matches = [] ∧ requirement.timeframes ≠ [] then g3 else [])) = [] := by
  obtain ⟨h1, h2, h3⟩ := full_conditions _ _ _ _ _ h
  rw [if_neg (fun hc => h1 hc.1), if_neg, if_neg]
  · rfl
  · rintro ⟨ha, hb⟩
    rcases h3 with h3 | h3
    · exact hb h3
    · exact h3 ha
  · rintro ⟨ha, hb⟩
    have hk : 0 < requirement.key_obligations.length := List.length_pos.mpr hb
    rw [ha] at h2
    simp only [List.length_nil] at h2
    omega

/-- C10: whenever the single-pair assessment classifies a pair as
FULL_COMPLIANCE, its gaps list is empty. -/
theorem full_compliance_no_gaps (requirement : RequirementDetail) (policy : Policy)
    (h : (assess_policy_coverage requirement policy).coverage_type = .FULL_COMPLIANCE) :
    (assess_policy_coverage requirement policy).gaps = [] := by
  rcases hpt : policy.extracted_text with _ | t
  · rw [assess_none _ _ hpt] at h
    simp [noTextAssessment] at h
  · by_cases ht : t = ""
    · rw [ht] at hpt
      rw [assess_empty _ _ hpt] at h
      simp [noTextAssessment] at h
    · rw [assess_some _ _ _ hpt ht] at h ⊢
      rw [assess_body_coverage_type] at h
      rw [assess_body_gaps]
      exact full_gaps_empty _ _ _ _ _ _ _ _ h

/-- Witness for C10: a concrete pair classified FULL_COMPLIANCE whose
gaps list is empty. -/
theorem full_compliance_no_gaps_witness :
    (assess_policy_coverage reqFull polFull).coverage_type = .FULL_COMPLIANCE ∧
    (assess_policy_coverage reqFull polFull).gaps = [] := by
  have hlow : pyLower "WIC 100 maintain records" = "wic 100 maintain records" := by decide
  have hsome : (obligationEntry "must maintain records"
      "wic 100 maintain records").isSome = true := by
    rw [obligationEntry_isSome_iff]
    exact ⟨by decide, by decide⟩
  obtain ⟨entry, hentry⟩ := Option.isSome_iff_exists.mp hsome
  have hOClen : (reqFull.key_obligations.filterMap
      (fun obligation => obligationEntry obligation "wic 100 maintain records")).length = 1 := by
    simp [reqFull, hentry]
  have hcov : (assess_policy_coverage reqFull polFull).coverage_type = .FULL_COMPLIANCE := by
    rw [assess_some reqFull polFull "WIC 100 maintain records" rfl (by decide),
        assess_body_coverage_type, hlow, determine_matches_rules]
    unfold coverage_rules_spec
    rw [hOClen]
    rw [if_pos ⟨by decide, by decide, Or.inl (by decide)⟩]
  exact ⟨hcov, full_compliance_no_gaps reqFull polFull hcov⟩

/-- Every coverage priority is at most 5. -/
lemma coveragePriority_le_five (ct : CoverageType) : coveragePriority ct ≤ 5 := by
  cases ct <;> simp [coveragePriority]

/-- Adding a regulation match never moves the classifier to a weaker
tier of the priority ordering. -/
lemma tier_monotone (reg_matches : List String) (apl_mentioned : Bool)
    (obligation_coverage : List (String × ℚ)) (timeframe_matches : List String)
    (requirement : RequirementDetail) (r : String) :
    coveragePriority (determine_coverage_type reg_matches apl_mentioned
        obligation_coverage timeframe_matches requirement) ≤
    coveragePriority (determine_coverage_type (r :: reg_matches) apl_mentioned
        obligation_coverage timeframe_matches requirement) := by
  rw [determine_matches_rules, determine_matches_rules]
  unfold coverage_rules_spec
  have hcons : (r :: reg_matches).length ≥ 1 := by simp
  by_cases hPQ : 10 * obligation_coverage.length ≥
      7 * requirement.key_obligations.length ∧
      (requirement.timeframes.length = 0 ∨ timeframe_matches.length ≥ 1)
  · conv_rhs => rw [if_pos ⟨hcons, hPQ.1, hPQ.2⟩]
    exact le_trans (coveragePriority_le_five _) (by simp [coveragePriority])
  · have hA1 : ¬(reg_matches.length ≥ 1 ∧
        10 * obligation_coverage.length ≥ 7 * requirement.key_obligations.length ∧
        (requirement.timeframes.length = 0 ∨ timeframe_matches.length ≥ 1)) :=
      fun hc => hPQ ⟨hc.2.1, hc.2.2⟩
    have hB1 : ¬((r :: reg_matches).length ≥ 1 ∧
        10 * obligation_coverage.length ≥ 7 * requirement.key_obligations.length ∧
        (requirement.timeframes.length = 0 ∨ timeframe_matches.length ≥ 1)) :=
      fun hc => hPQ ⟨hc.2.1, hc.2.2⟩
    rw [if_neg hA1, if_neg hB1]
    by_cases hR : 10 * obligation_coverage.length <
        3 * requirement.key_obligations.length
    · conv_rhs => rw [if_pos ⟨Or.inl hcons, hR⟩]
      have hS : ¬(10 * obligation_coverage.length ≥
          3 * requirement.key_obligations.length) := by omega
      by_cases hA2 : (reg_matches.length ≥ 1 ∨ apl_mentioned = true) ∧
          10 * obligation_coverage.length < 3 * requirement.key_obligations.length
      · rw [if_pos hA2]
      · rw [if_neg hA2, if_neg hS]
        split_ifs <;> simp [coveragePriority]
    · have hS : 10 * obligation_coverage.length ≥
          3 * requirement.key_obligations.length := by omega
      have hA2 : ¬((reg_matches.length ≥ 1 ∨ apl_mentioned = true) ∧
          10 * obligation_coverage.length < 3 * requirement.key_obligations.length) :=
        fun hc => hR hc.2
      have hB2 : ¬(((r :: reg_matches).length ≥ 1 ∨ apl_mentioned = true) ∧
          10 * obligation_coverage.length < 3 * requirement.key_obligations.length) :=
        fun hc => hR hc.2
      rw [if_neg hA2, if_neg hB2, if_pos hS]

/-- C5: enlarging the matched regulation references of an evidence
bundle by one previously-missing reference, all other fields unchanged,
never decreases the confidence score and never moves the coverage type
to a weaker tier of the ordering FULL_COMPLIANCE > PARTIAL_COMPLIANCE >
REFERENCE_ONLY > RELATED > MANUAL_REVIEW > NO_COVERAGE. -/
theorem regulation_match_monotone (requirement : RequirementDetail)
    (evidence : EvidenceBundle) (r : String)
    (h1 : requirement.regulation_references ≠ [])
    (_h2 : r ∉ evidence.regulation_matches) :
    calculate_confidence evidence requirement ≤
      calculate_confidence
        { evidence with regulation_matches := r :: evidence.regulation_matches }
        requirement ∧
    coveragePriority (determine_coverage_type evidence.regulation_matches
        evidence.apl_mentioned evidence.obligation_coverage
        evidence.timeframe_matches requirement) ≤
    coveragePriority (determine_coverage_type (r :: evidence.regulation_matches)
        evidence.apl_mentioned evidence.obligation_coverage
        evidence.timeframe_matches requirement) := by
  refine ⟨?_, tier_monotone _ _ _ _ _ _⟩
  have hR : (0 : ℚ) < (requirement.regulation_references.length : ℚ) := by
    exact_mod_cast List.length_pos.mpr h1
  have hterm : (evidence.regulation_matches.length : ℚ) /
      (requirement.regulation_references.length : ℚ) * 0.3 ≤
      ((r :: evidence.regulation_matches).length : ℚ) /
      (requirement.regulation_references.length : ℚ) * 0.3 := by
    have hlen : (evidence.regulation_matches.length : ℚ) ≤
        ((r :: evidence.regulation_matches).length : ℚ) := by
      push_cast [List.length_cons]
      linarith
    gcongr
  unfold calculate_confidence
  apply min_le_min _ le_rfl
  rw [if_pos h1, if_pos h1]
  split_ifs <;> simp only [] <;> linarith [hterm]

/-- Witness for C5 at a concrete requirement and evidence bundle. -/
theorem regulation_match_monotone_witness :
    (reqFull.regulation_references ≠ [] ∧
     "WIC 100" ∉ emptyEvidence.regulation_matches) ∧
    (calculate_confidence emptyEvidence reqFull ≤
      calculate_confidence
        { emptyEvidence with
            regulation_matches := "WIC 100" :: emptyEvidence.regulation_matches }
        reqFull ∧
     coveragePriority (determine_coverage_type emptyEvidence.regulation_matches
        emptyEvidence.apl_mentioned emptyEvidence.obligation_coverage
        emptyEvidence.timeframe_matches reqFull) ≤
     coveragePriority (determine_coverage_type
        ("WIC 100" :: emptyEvidence.regulation_matches)
        emptyEvidence.apl_mentioned emptyEvidence.obligation_coverage
        emptyEvidence.timeframe_matches reqFull)) :=
  ⟨⟨by decide, by decide⟩,
    regulation_match_monotone reqFull emptyEvidence "WIC 100" (by decide) (by decide)⟩

/-- The overlap test is symmetric. -/
lemma overlapsWith_symm {a b : ContextualExcerpt} :
    overlapsWith a b ↔ overlapsWith b a := by
  unfold overlapsWith
  omega

/-- Every member of a sweep step is an old member or the new excerpt. -/
lemma mem_dedupStep {y : ContextualExcerpt} :
    ∀ {kept : List ContextualExcerpt} {e : ContextualExcerpt},
    y ∈ dedupStep kept e → y ∈ kept ∨ y = e := by
  intro kept
  induction kept with
  | nil =>
      intro e h
      simp only [dedupStep, List.mem_singleton] at h
      exact Or.inr h
  | cons x rest ih =>
      intro e h
      simp only [dedupStep] at h
      split_ifs at h with h1 h2
      · rcases List.mem_append.mp h with h | h
        · exact Or.inl (List.mem_cons_of_mem _ h)
        · exact Or.inr (List.mem_singleton.mp h)
      · exact Or.inl h
      · rcases List.mem_cons.mp h with h | h
        · exact Or.inl (by simp [h])
        · rcases ih h with h | h
          · exact Or.inl (List.mem_cons_of_mem _ h)
          · exact Or.inr h

/-- A new excerpt whose start is at least every kept start cannot
overlap two mutually non-overlapping kept excerpts. -/
lemma two_overlaps_false {x y e : ContextualExcerpt}
    (hx : x.start_pos ≤ e.start_pos) (hy : y.start_pos ≤ e.start_pos)
    (hxy : ¬ overlapsWith x y) (hex : overlapsWith e x)
    (hey : overlapsWith e y) : False := by
  unfold overlapsWith at *
  omega

/-- One sweep step preserves pairwise non-overlap, provided the incoming
excerpt starts no earlier than every kept excerpt. -/
lemma dedupStep_pairwise :
    ∀ (kept : List ContextualExcerpt) (e : ContextualExcerpt),
    kept.Pairwise (fun a b => ¬ overlapsWith a b) →
    (∀ x ∈ kept, x.start_pos ≤ e.start_pos) →
    (dedupStep kept e).Pairwise (fun a b => ¬ overlapsWith a b) := by
  intro kept
  induction kept with
  | nil =>
      intro e _ _
      simp [dedupStep]
  | cons x rest ih =>
      intro e hp hle
      have hx : ∀ y ∈ rest, ¬ overlapsWith x y := (List.pairwise_cons.mp hp).1
      have hrest : rest.Pairwise (fun a b => ¬ overlapsWith a b) :=
        (List.pairwise_cons.mp hp).2
      simp only [dedupStep]
      split_ifs with h1 h2
      · rw [List.pairwise_append]
        refine ⟨hrest, by simp, ?_⟩
        intro a ha b hb
        rw [List.mem_singleton] at hb
        subst hb
        intro hab
        exact two_overlaps_false (hle x (List.mem_cons_self _ _))
          (hle a (List.mem_cons_of_mem _ ha)) (hx a ha) h1
          (overlapsWith_symm.mp hab)
      · exact hp
      · rw [List.pairwise_cons]
        constructor
        · intro y hy
          rcases mem_dedupStep hy with h | h
          · exact hx y h
          · subst h
            intro hxe
            exact h1 (overlapsWith_symm.mp hxe)
        · exact ih e hrest (fun y hy => hle y (List.mem_cons_of_mem _ hy))

/-- Folding the sweep over a start-sorted list of excerpts preserves
pairwise non-overlap of the accumulator. -/
lemma dedup_foldl_pairwise :
    ∀ (rest acc : List ContextualExcerpt),
    acc.Pairwise (fun a b => ¬ overlapsWith a b) →
    (∀ x ∈ rest, ∀ a ∈ acc, a.start_pos ≤ x.start_pos) →
    rest.Pairwise (fun a b => a.start_pos ≤ b.start_pos) →
    (rest.foldl dedupStep acc).Pairwise (fun a b => ¬ overlapsWith a b) := by
  intro rest
  induction rest with
  | nil =>
      intro acc h _ _
      exact h
  | cons e rest ih =>
      intro acc hacc hle hsorted
      rw [List.foldl_cons]
      apply ih
      · exact dedupStep_pairwise acc e hacc
          (fun x hx => hle e (List.mem_cons_self _ _) x hx)
      · intro x hx a ha
        rcases mem_dedupStep ha with h | h
        · exact hle x (List.mem_cons_of_mem _ hx) a h
        · subst h
          exact (List.pairwise_cons.mp hsorted).1 x hx
      · exact (List.pairwise_cons.mp hsorted).2

/-- The sort key is transitive. -/
lemma excerptLE_trans (a b c : ContextualExcerpt)
    (hab : excerptLE a b) (hbc : excerptLE b c) : excerptLE a c := by
  unfold excerptLE at *
  simp only [decide_eq_true_eq] at *
  rcases hab with h | ⟨h, hr⟩ <;> rcases hbc with g | ⟨g, gr⟩
  · exact Or.inl (by omega)
  · exact Or.inl (by omega)
  · exact Or.inl (by omega)
  · exact Or.inr ⟨by omega, le_trans gr hr⟩

/-- The sort key is total. -/
lemma excerptLE_total (a b : ContextualExcerpt) :
    excerptLE a b || excerptLE b a := by
  unfold excerptLE
  simp only [Bool.or_eq_true, decide_eq_true_eq]
  rcases lt_trichotomy a.start_pos b.start_pos with h | h | h
  · exact Or.inl (Or.inl h)
  · rcases le_total a.relevance_score b.relevance_score with hr | hr
    · exact Or.inr (Or.inr ⟨h.symm, hr⟩)
    · exact Or.inl (Or.inr ⟨h, hr⟩)
  · exact Or.inr (Or.inl h)

/-- C4: the deduplicated excerpt list never contains two excerpts with
overlapping spans (`new.start < kept.end AND new.end > kept.start`), for
every input list of candidate excerpts. -/
theorem deduplicate_excerpts_no_overlap (excerpts : List ContextualExcerpt) :
    (deduplicate_excerpts excerpts).Pairwise (fun a b => ¬ overlapsWith a b) := by
  unfold deduplicate_excerpts
  have hsorted := List.sorted_mergeSort excerptLE_trans excerptLE_total excerpts
  have hstart : (excerpts.mergeSort excerptLE).Pairwise
      (fun a b => a.start_pos ≤ b.start_pos) := by
    refine hsorted.imp ?_
    intro a b hab
    unfold excerptLE at hab
    simp only [decide_eq_true_eq] at hab
    rcases hab with h | ⟨h, _⟩
    · omega
    · omega
  rcases hms : excerpts.mergeSort excerptLE with _ | ⟨first, rest⟩
  · simp
  · rw [hms] at hstart
    apply dedup_foldl_pairwise
    · simp
    · intro x hx a ha
      rw [List.mem_singleton] at ha
      subst ha
      exact (List.pairwise_cons.mp hstart).1 x hx
    · exact (List.pairwise_cons.mp hstart).2
